import Mathlib

/-!
# Verification of the nano-editor local image-transform pipeline

Shallow embedding of the core of `src/script.js` (class `GeminiImageEditor`):
the pixel-level color transforms, the canvas compositing steps, the variant
composer `applyImageModifications`, and the pipeline driver
`generateModifiedImages` / `callGeminiAPI`.

Modelling conventions:
* JavaScript numbers are modelled by exact rationals (`ℚ`); a store into a
  `Uint8ClampedArray` is modelled by clamping to `[0,255]` followed by
  round-half-to-even, the conversion rule for clamped byte arrays.
* The 2D canvas context is modelled as a state record (`Ctx`) holding the
  materialised pixel buffer (the data seen by `getImageData`/`putImageData`),
  the context state the code reads and writes (`globalCompositeOperation`,
  `globalAlpha`, fill/stroke styles, font, shadow), and a trace of the paint
  commands issued to the external canvas surface (fills, text, self-draws),
  each snapshotting the context state in force when it was issued.  The
  rasterisation of paint commands is the browser's, not this program's, so it
  stays symbolic in the trace; the arithmetic the program itself performs on
  pixel data (`applyColorEffect`, the sepia branch) is embedded exactly.
* `Math.random()` is modelled by an explicit stream of rationals threaded
  through the functions that call it; drawing from an exhausted stream
  yields `0`.
* Exceptions thrown by the external decode/draw surface inside one variant's
  composition are modelled by an oracle `fails : Nat → Bool` telling which
  loop indices of `generateModifiedImages` hit the `catch` branch.
-/

namespace NanoEditor

/-! ## Clamped-byte arithmetic -/

/-- Round-half-to-even on rationals (the rounding used when a JS number is
stored into a `Uint8ClampedArray`). -/
def roundHalfEven (q : ℚ) : ℤ :=
  if q - ⌊q⌋ < 1/2 then ⌊q⌋
  else if 1/2 < q - ⌊q⌋ then ⌊q⌋ + 1
  else if ⌊q⌋ % 2 = 0 then ⌊q⌋ else ⌊q⌋ + 1

/-- Conversion of a JS number to a `Uint8ClampedArray` element: clamp to
`[0,255]`, then round half to even. -/
def toByte (q : ℚ) : Nat :=
  if q ≤ 0 then 0
  else if 255 ≤ q then 255
  else (roundHalfEven q).toNat

/-! ## Pixel-data loops (`applyColorEffect` body, sepia branch of
`addVariationEffect`) -/

/-- One channel of the tint loop: `data[i] = Math.min(255, data[i] * f)`
followed by the clamped store. -/
def tintByte (f : ℚ) (x : Nat) : Nat :=
  toByte (min 255 ((x : ℚ) * f))

/-- The per-pixel loop body of `applyColorEffect` over the flat RGBA data
array (stride 4; the alpha byte is not written).  A trailing fragment
shorter than 4 bytes is left untouched, as the loop guard skips it. -/
def tintData (fr fg fb : ℚ) : List Nat → List Nat
  | r :: g :: b :: a :: rest =>
      tintByte fr r :: tintByte fg g :: tintByte fb b :: a :: tintData fr fg fb rest
  | rest => rest

/-- Red channel of one sepia-mapped pixel:
`Math.min(255, r*0.393 + g*0.769 + b*0.189)` then the clamped store. -/
def sepiaR (r g b : Nat) : Nat :=
  toByte (min 255 ((r : ℚ) * (393/1000) + (g : ℚ) * (769/1000) + (b : ℚ) * (189/1000)))

/-- Green channel of one sepia-mapped pixel. -/
def sepiaG (r g b : Nat) : Nat :=
  toByte (min 255 ((r : ℚ) * (349/1000) + (g : ℚ) * (686/1000) + (b : ℚ) * (168/1000)))

/-- Blue channel of one sepia-mapped pixel. -/
def sepiaB (r g b : Nat) : Nat :=
  toByte (min 255 ((r : ℚ) * (272/1000) + (g : ℚ) * (534/1000) + (b : ℚ) * (131/1000)))

/-- The sepia loop of `addVariationEffect` case 2 over the flat RGBA data
array: the original `r`, `g`, `b` are read into locals before any store, so
all three output channels are computed from the original values. -/
def sepiaData : List Nat → List Nat
  | r :: g :: b :: a :: rest =>
      sepiaR r g b :: sepiaG r g b :: sepiaB r g b :: a :: sepiaData rest
  | rest => rest

/-- Projection of the alpha bytes (every 4th element) of a flat RGBA array. -/
def alphaBytes : List Nat → List Nat
  | _ :: _ :: _ :: a :: rest => a :: alphaBytes rest
  | _ => []

/-! ## The canvas surface model -/

/-- The `globalCompositeOperation` values the code uses. -/
inductive CompOp
  | sourceOver
  | screen
  | multiply
  | overlay
deriving DecidableEq

/-- An RGBA color with rational components, the structural form of the CSS
color strings the code builds. -/
structure ColorQ where
  r : ℚ
  g : ℚ
  b : ℚ
  a : ℚ
deriving DecidableEq

/-- A canvas fill/stroke style: a solid color or a gradient with its
geometry and color stops. -/
inductive Paint
  | solid (c : ColorQ)
  | linearGrad (x0 y0 x1 y1 : ℚ) (stops : List (ℚ × ColorQ))
  | radialGrad (x0 y0 r0 x1 y1 r1 : ℚ) (stops : List (ℚ × ColorQ))
deriving DecidableEq

/-- A canvas font specification (`bold ${size}px family`). -/
structure FontSpec where
  bold : Bool
  sizePx : ℚ
  family : String
deriving DecidableEq

/-- A paint command issued to the external canvas surface, snapshotting the
context state in force when it was issued. -/
inductive Cmd
  | drawSource
  | drawSelf (dx dy : ℚ) (alpha : ℚ) (op : CompOp)
  | fillRect (x y w h : ℚ) (paint : Paint) (alpha : ℚ) (op : CompOp)
  | fillText (s : String) (x y : ℚ) (paint : Paint) (font : FontSpec)
      (align : String) (shadowBlur : ℚ) (shadowColor : ColorQ)
      (alpha : ℚ) (op : CompOp)
  | strokeText (s : String) (x y : ℚ) (paint : Paint) (lineWidth : ℚ)
      (font : FontSpec) (align : String) (alpha : ℚ) (op : CompOp)
deriving DecidableEq

/-- The 2D context of one variant's scratch canvas: its dimensions, the
materialised pixel buffer (what `getImageData` returns and `putImageData`
stores), the mutable context state, and the trace of paint commands. -/
structure Ctx where
  width : Nat
  height : Nat
  pixels : List Nat
  gco : CompOp
  alpha : ℚ
  fillStyle : Paint
  strokeStyle : Paint
  lineWidth : ℚ
  font : FontSpec
  textAlign : String
  shadowColor : ColorQ
  shadowBlur : ℚ
  trace : List Cmd
deriving DecidableEq

/-- Embeds `ctx.fillRect(x, y, w, h)`. -/
def Ctx.fillRect (c : Ctx) (x y w h : ℚ) : Ctx :=
  { c with trace := c.trace ++ [Cmd.fillRect x y w h c.fillStyle c.alpha c.gco] }

/-- Embeds `ctx.fillText(s, x, y)`. -/
def Ctx.fillText (c : Ctx) (s : String) (x y : ℚ) : Ctx :=
  { c with trace := c.trace ++
      [Cmd.fillText s x y c.fillStyle c.font c.textAlign c.shadowBlur c.shadowColor c.alpha c.gco] }

/-- Embeds `ctx.strokeText(s, x, y)`. -/
def Ctx.strokeText (c : Ctx) (s : String) (x y : ℚ) : Ctx :=
  { c with trace := c.trace ++
      [Cmd.strokeText s x y c.strokeStyle c.lineWidth c.font c.textAlign c.alpha c.gco] }

/-- Embeds `ctx.drawImage(ctx.canvas, dx, dy)` — the self-draw used by the blur. -/
def Ctx.drawSelf (c : Ctx) (dx dy : ℚ) : Ctx :=
  { c with trace := c.trace ++ [Cmd.drawSelf dx dy c.alpha c.gco] }

/-- Opaque white at a given alpha. -/
def white (a : ℚ) : ColorQ := ⟨255, 255, 255, a⟩

/-- Black at a given alpha. -/
def black (a : ℚ) : ColorQ := ⟨0, 0, 0, a⟩

/-- One step of the explicit `Math.random()` stream: take the head, or `0`
from an exhausted stream. -/
def rngDraw : List ℚ → ℚ × List ℚ
  | [] => (0, [])
  | q :: rest => (q, rest)

/-! ## Effect functions (`applyColorEffect` … `addVariationEffect`) -/

/-- The fixed factor-triple table of `applyColorEffect`
(reddish, bluish, greenish, warm). -/
def colorEffects : List (ℚ × ℚ × ℚ) :=
  [(12/10, 8/10, 8/10), (8/10, 8/10, 12/10), (8/10, 12/10, 8/10), (11/10, 11/10, 7/10)]

/-- Embeds `applyColorEffect(ctx, width, height, variation)`: reads the full image
data, multiplies each RGB channel by the factor triple selected by
`variation % effects.length`, clamping via the clamped store, and writes it
back.  The alpha bytes are not written. -/
def applyColorEffect (c : Ctx) (variation : Nat) : Ctx :=
  let e := colorEffects.getD (variation % colorEffects.length) (1, 1, 1)
  { c with pixels := tintData e.1 e.2.1 e.2.2 c.pixels }

/-- Embeds `applyBrightnessEffect`: screen-blend a white fill at alpha
`0.1 + variation*0.05`, then reset the composite operation. -/
def applyBrightnessEffect (c : Ctx) (variation : Nat) : Ctx :=
  let c1 := { c with gco := CompOp.screen,
                     fillStyle := Paint.solid (white (1/10 + (variation : ℚ) * (5/100))) }
  let c2 := c1.fillRect 0 0 (c.width : ℚ) (c.height : ℚ)
  { c2 with gco := CompOp.sourceOver }

/-- Embeds `applyDarknessEffect`: multiply-blend a black fill at alpha
`0.1 + variation*0.05`, then reset the composite operation. -/
def applyDarknessEffect (c : Ctx) (variation : Nat) : Ctx :=
  let c1 := { c with gco := CompOp.multiply,
                     fillStyle := Paint.solid (black (1/10 + (variation : ℚ) * (5/100))) }
  let c2 := c1.fillRect 0 0 (c.width : ℚ) (c.height : ℚ)
  { c2 with gco := CompOp.sourceOver }

/-- One iteration of the blur loop: four self-draws at offsets `±i`. -/
def blurPass (c : Ctx) (i : ℚ) : Ctx :=
  (((c.drawSelf i 0).drawSelf (-i) 0).drawSelf 0 i).drawSelf 0 (-i)

/-- Embeds `applyBlurEffect`: set `globalAlpha` to `0.3`, self-draw at offsets
`±1, ±2, ±3` along each axis, then reset `globalAlpha` to `1.0`. -/
def applyBlurEffect (c : Ctx) : Ctx :=
  let c1 := { c with alpha := 3/10 }
  let c2 := blurPass (blurPass (blurPass c1 1) 2) 3
  { c2 with alpha := 1 }

/-! ## Text renderers -/

/-- One layer of the metallic shadow loop (`for (let i = 8; i > 0; i--)`,
with `i = 8 - k`): set the shadow fill at opacity `0.3 - i*0.03` and draw
the text offset by `i`. -/
def metallicShadow (text : String) (x y : ℚ) (acc : Ctx) (k : Nat) : Ctx :=
  let i : ℚ := ((8 - k : Nat) : ℚ)
  let acc1 := { acc with fillStyle := Paint.solid (black (3/10 - i * (3/100))) }
  acc1.fillText text (x + i) (y + i)

/-- Embeds `draw3DMetallicText`: 8 receding shadow layers, a 4-stop metallic
gradient fill, and a white outline offset by one pixel. -/
def draw3DMetallicText (c : Ctx) (text : String) (x y fontSize : ℚ) : Ctx :=
  let c0 := { c with font := ⟨true, fontSize, "Arial"⟩, textAlign := "center" }
  let shadowPass := (List.range 8).foldl (metallicShadow text x y) c0
  let grad := Paint.linearGrad (x - fontSize) (y - fontSize/2) (x + fontSize) (y + fontSize/2)
      [(0, ⟨192,192,192,1⟩), (3/10, ⟨255,255,255,1⟩), (6/10, ⟨160,160,160,1⟩), (1, ⟨128,128,128,1⟩)]
  let c1 := { shadowPass with fillStyle := grad }
  let c2 := c1.fillText text x y
  let c3 := { c2 with strokeStyle := Paint.solid (white 1), lineWidth := 2 }
  c3.strokeText text (x - 1) (y - 1)

/-- The 5-color balloon palette (`#ff6b6b`, `#4ecdc4`, `#45b7d1`,
`#96ceb4`, `#ffeaa7`). -/
def balloonPalette : List ColorQ :=
  [⟨255,107,107,1⟩, ⟨78,205,196,1⟩, ⟨69,183,209,1⟩, ⟨150,206,180,1⟩, ⟨255,234,167,1⟩]

/-- Embeds `drawBalloonText`: shadow at offset 3, fill in a randomly chosen palette
color (`Math.floor(Math.random() * colors.length)`), dark 3px outline. -/
def drawBalloonText (c : Ctx) (text : String) (x y fontSize : ℚ) (rng : List ℚ) :
    Ctx × List ℚ :=
  let c0 := { c with font := ⟨true, fontSize, "Comic Sans MS, cursive"⟩, textAlign := "center" }
  let c1 := { c0 with fillStyle := Paint.solid (black (3/10)) }
  let c2 := c1.fillText text (x + 3) (y + 3)
  let q := (rngDraw rng).1
  let rng1 := (rngDraw rng).2
  let color := balloonPalette.getD (⌊q * 5⌋).toNat (black 1)
  let c3 := { c2 with fillStyle := Paint.solid color }
  let c4 := c3.fillText text x y
  let c5 := { c4 with strokeStyle := Paint.solid ⟨51,51,51,1⟩, lineWidth := 3 }
  (c5.strokeText text x y, rng1)

/-- One iteration of the matrix digital-noise loop: two random draws place
a 2×2 rectangle within one font-size of the anchor. -/
def matrixNoise (x y fontSize : ℚ) (acc : Ctx × List ℚ) (_k : Nat) : Ctx × List ℚ :=
  let q1 := (rngDraw acc.2).1
  let r1 := (rngDraw acc.2).2
  let q2 := (rngDraw r1).1
  let r2 := (rngDraw r1).2
  let rx := x + (q1 - 1/2) * fontSize * 2
  let ry := y + (q2 - 1/2) * fontSize
  (acc.1.fillRect rx ry 2 2, r2)

/-- Embeds `drawMatrixText`: green glow fill, glow reset, then 20 randomly placed
2×2 green noise rectangles (two random draws each). -/
def drawMatrixText (c : Ctx) (text : String) (x y fontSize : ℚ) (rng : List ℚ) :
    Ctx × List ℚ :=
  let c0 := { c with font := ⟨true, fontSize, "Courier New, monospace"⟩,
                     textAlign := "center",
                     shadowColor := ⟨0,255,0,1⟩, shadowBlur := 10,
                     fillStyle := Paint.solid ⟨0,255,0,1⟩ }
  let c1 := c0.fillText text x y
  let c2 := { c1 with shadowBlur := 0, fillStyle := Paint.solid ⟨0,255,0,3/10⟩ }
  (List.range 20).foldl (matrixNoise x y fontSize) (c2, rng)

/-- The 4-color deterministic palette of `drawSimpleText`
(`#ff4757`, `#3742fa`, `#2ed573`, `#ffa502`). -/
def simpleTextPalette : List ColorQ :=
  [⟨255,71,87,1⟩, ⟨55,66,250,1⟩, ⟨46,213,115,1⟩, ⟨255,165,2,1⟩]

/-- Embeds `drawSimpleText`: drop shadow at offset 2, solid fill colored by
`variation % colors.length`, white 2px outline. -/
def drawSimpleText (c : Ctx) (text : String) (x y fontSize : ℚ) (variation : Nat) : Ctx :=
  let c0 := { c with font := ⟨true, fontSize, "Arial"⟩, textAlign := "center" }
  let color := simpleTextPalette.getD (variation % simpleTextPalette.length) (black 1)
  let c1 := { c0 with fillStyle := Paint.solid (black (1/2)) }
  let c2 := c1.fillText text (x + 2) (y + 2)
  let c3 := { c2 with fillStyle := Paint.solid color }
  let c4 := c3.fillText text x y
  let c5 := { c4 with strokeStyle := Paint.solid (white 1), lineWidth := 2 }
  c5.strokeText text x y

/-- Embeds `addTextOverlay`: font size `min(width,height)*0.08`, anchor
`(width/2, height*0.9)`, dispatch on the text-style selector value. -/
def addTextOverlay (c : Ctx) (text style : String) (variation : Nat) (rng : List ℚ) :
    Ctx × List ℚ :=
  let fontSize : ℚ := ((min c.width c.height : Nat) : ℚ) * (8/100)
  let x : ℚ := (c.width : ℚ) / 2
  let y : ℚ := (c.height : ℚ) * (9/10)
  if style = "3D metallic" then (draw3DMetallicText c text x y fontSize, rng)
  else if style = "balloon" then drawBalloonText c text x y fontSize rng
  else if style = "Matrix" then drawMatrixText c text x y fontSize rng
  else (drawSimpleText c text x y fontSize variation, rng)

/-! ## The variant-indexed default effect -/

/-- Embeds `addVariationEffect`: vignette for index 0, screen-blended light rays for
index 1, the sepia pixel transform for index 2, and an overlay-blended
random tint for every other index (three `Math.random()` draws). -/
def addVariationEffect (c : Ctx) (rng : List ℚ) (variation : Nat) : Ctx × List ℚ :=
  match variation with
  | 0 =>
      let grad := Paint.radialGrad ((c.width : ℚ)/2) ((c.height : ℚ)/2) 0
          ((c.width : ℚ)/2) ((c.height : ℚ)/2) (((max c.width c.height : Nat) : ℚ)/2)
          [(0, black 0), (1, black (3/10))]
      let c1 := { c with fillStyle := grad }
      (c1.fillRect 0 0 (c.width : ℚ) (c.height : ℚ), rng)
  | 1 =>
      let c1 := { c with gco := CompOp.screen }
      let grad := Paint.linearGrad 0 0 (c.width : ℚ) (c.height : ℚ)
          [(0, white 0), (1/2, white (1/10)), (1, white 0)]
      let c2 := { c1 with fillStyle := grad }
      let c3 := c2.fillRect 0 0 (c.width : ℚ) (c.height : ℚ)
      ({ c3 with gco := CompOp.sourceOver }, rng)
  | 2 =>
      ({ c with pixels := sepiaData c.pixels }, rng)
  | _ =>
      let c1 := { c with gco := CompOp.overlay }
      let q1 := (rngDraw rng).1
      let r1 := (rngDraw rng).2
      let q2 := (rngDraw r1).1
      let r2 := (rngDraw r1).2
      let q3 := (rngDraw r2).1
      let r3 := (rngDraw r2).2
      let c2 := { c1 with fillStyle := Paint.solid ⟨q1 * 255, q2 * 255, q3 * 255, 1/10⟩ }
      let c3 := c2.fillRect 0 0 (c.width : ℚ) (c.height : ℚ)
      ({ c3 with gco := CompOp.sourceOver }, r3)

/-! ## Keyword triggers and the variant composer -/

/-- Does `pat` match `hay` at its head? -/
def leadMatch : List Char → List Char → Bool
  | [], _ => true
  | _ :: _, [] => false
  | p :: ps, h :: hs => p == h && leadMatch ps hs

/-- Embeds `hay.includes(pat)`: does `pat` occur as a contiguous run of `hay`? -/
def hasSub (pat : List Char) : List Char → Bool
  | [] => leadMatch pat []
  | h :: hs => leadMatch pat (h :: hs) || hasSub pat hs

/-- Embeds `s.includes(pat)` on strings. -/
def jsIncludes (s pat : String) : Bool := hasSub pat.toList s.toList

/-- Embeds `s.toLowerCase()` (ASCII case mapping; every keyword the code tests is
ASCII). -/
def jsLower (s : String) : String := String.mk (s.toList.map Char.toLower)

/-- Case-insensitive occurrence of `pat` in `s`: lower both sides and test
containment.  Stated from the spec's wording to compare with the code's
lower-the-prompt-only tests (the patterns are lowercase literals). -/
def occursCI (s pat : String) : Bool := jsIncludes (jsLower s) (jsLower pat)

/-- Is this character trimmed by `String.prototype.trim()`? (ASCII
whitespace; the titles at issue are ASCII). -/
def jsWhitespace (c : Char) : Bool :=
  c = ' ' || c = '\t' || c = '\n' || c = '\r'

/-- Embeds `s.trim()`: strip leading and trailing whitespace. -/
def jsTrim (s : String) : String :=
  String.mk (((s.toList.dropWhile jsWhitespace).reverse.dropWhile jsWhitespace).reverse)

/-- The tint trigger: `prompt.toLowerCase().includes('color'|'blue'|'red')`. -/
def tintTriggered (prompt : String) : Bool :=
  jsIncludes (jsLower prompt) "color" || jsIncludes (jsLower prompt) "blue" ||
    jsIncludes (jsLower prompt) "red"

/-- The brightness trigger: `'bright'` or `'light'`. -/
def brightTriggered (prompt : String) : Bool :=
  jsIncludes (jsLower prompt) "bright" || jsIncludes (jsLower prompt) "light"

/-- The darkness trigger: `'dark'` or `'shadow'`. -/
def darkTriggered (prompt : String) : Bool :=
  jsIncludes (jsLower prompt) "dark" || jsIncludes (jsLower prompt) "shadow"

/-- The blur trigger: `'blur'` or `'soft'`. -/
def blurTriggered (prompt : String) : Bool :=
  jsIncludes (jsLower prompt) "blur" || jsIncludes (jsLower prompt) "soft"

/-- Embeds `applyImageModifications(ctx, canvas, prompt, variation)`: the variant
composer.  Independent keyword-triggered steps in the code's order (tint,
brightness, darkness, blur), then the optional text overlay when the trimmed
title is non-empty, then always the variant-indexed default effect. -/
def applyImageModifications (c : Ctx) (prompt title style : String)
    (variation : Nat) (rng : List ℚ) : Ctx :=
  let t := jsTrim title
  let c1 := if tintTriggered prompt then applyColorEffect c variation else c
  let c2 := if brightTriggered prompt then applyBrightnessEffect c1 variation else c1
  let c3 := if darkTriggered prompt then applyDarknessEffect c2 variation else c2
  let c4 := if blurTriggered prompt then applyBlurEffect c3 else c3
  let step5 := if t = "" then (c4, rng) else addTextOverlay c4 t style variation rng
  (addVariationEffect step5.1 step5.2 variation).1

/-! ## The pipeline driver -/

/-- The decoded source raster handed to each variant (dimensions and flat
RGBA pixel data). -/
structure SourceImage where
  width : Nat
  height : Nat
  pixels : List Nat
deriving DecidableEq

/-- The scratch canvas a variant starts from: the source just drawn at the
origin, all context state at its canvas defaults. -/
def initCtx (src : SourceImage) : Ctx :=
  { width := src.width, height := src.height, pixels := src.pixels,
    gco := CompOp.sourceOver, alpha := 1,
    fillStyle := Paint.solid (black 1), strokeStyle := Paint.solid (black 1),
    lineWidth := 1, font := ⟨false, 10, "sans-serif"⟩, textAlign := "start",
    shadowColor := black 0, shadowBlur := 0,
    trace := [Cmd.drawSource] }

/-- Embeds `canvas.toDataURL('image/jpeg', 0.9)`: the encoded output of one
variant, wrapping the final surface. -/
structure EncodedImage where
  mime : String
  quality : ℚ
  surface : Ctx
deriving DecidableEq

/-- Embeds `createModifiedImage(imageBase64, prompt, variation)`: decode the source
into a fresh canvas, run the composer, encode at JPEG quality 0.9.  Each
call decodes its own fresh copy of the shared base64 source. -/
def createModifiedImage (src : SourceImage) (prompt title style : String)
    (variation : Nat) (rng : List ℚ) : EncodedImage :=
  ⟨"image/jpeg", 9/10, applyImageModifications (initCtx src) prompt title style variation rng⟩

/-- Embeds `createFallbackModifiedImage(imageBase64, variation)`: decode a fresh
copy and apply only the variant-indexed default effect. -/
def createFallbackModifiedImage (src : SourceImage) (variation : Nat)
    (rng : List ℚ) : EncodedImage :=
  ⟨"image/jpeg", 9/10, (addVariationEffect (initCtx src) rng variation).1⟩

/-- One entry of the result list pushed by `generateModifiedImages`:
`{imageData, prompt, timestamp: Date.now() + i, variation: i + 1}`. -/
structure VariantResult where
  imageData : EncodedImage
  prompt : String
  timestamp : Nat
  variation : Nat
deriving DecidableEq

/-- Embeds `generateModifiedImages(count, enhancedPrompt, originalImageBase64)`:
the sequential loop over `i = 0 .. count-1`.  `fails i` tells whether the
`try` body for index `i` threw (a failure of the external decode/draw
surface); the `catch` branch then pushes the fallback result for the same
index.  `rng i` is the `Math.random()` stream available to variant `i`, and
`now` the clock reading. -/
def generateModifiedImages (count : Nat) (enhancedPrompt : String)
    (src : SourceImage) (title style : String)
    (fails : Nat → Bool) (rng : Nat → List ℚ) (now : Nat) : List VariantResult :=
  (List.range count).map fun i =>
    if fails i then
      { imageData := createFallbackModifiedImage src i (rng i),
        prompt := enhancedPrompt, timestamp := now + i, variation := i + 1 }
    else
      { imageData := createModifiedImage src enhancedPrompt title style i (rng i),
        prompt := enhancedPrompt, timestamp := now + i, variation := i + 1 }

/-- Number of image-decode operations (`new Image()` loads of the base64
source) a run of `generateModifiedImages` performs: one inside each
`createModifiedImage` call, plus one more in `createFallbackModifiedImage`
for every variant whose `try` body threw. -/
def decodeCount (count : Nat) (fails : Nat → Bool) : Nat :=
  (((List.range count).map fun i => if fails i then 2 else 1)).sum

/-! ## `callGeminiAPI`: count parsing and the analysis call -/

/-- Value of a list of decimal digit characters. -/
def digitsToNat (ds : List Char) : Nat :=
  ds.foldl (fun acc c => acc * 10 + (c.toNat - 48)) 0

/-- Embeds `parseInt(s)` for the decimal strings a number input yields: skip
leading whitespace, an optional sign, then the longest run of leading
decimal digits; `none` models `NaN` (no digits found). -/
def parseIntJS (s : String) : Option Int :=
  let digitsOf : List Char → Option Nat := fun l =>
    match l.takeWhile Char.isDigit with
    | [] => none
    | ds => some (digitsToNat ds)
  match s.toList.dropWhile (fun c => c = ' ' || c = '\t' || c = '\n' || c = '\r') with
  | '-' :: rest => (digitsOf rest).map (fun n => -(n : Int))
  | '+' :: rest => (digitsOf rest).map (fun n => (n : Int))
  | rest => (digitsOf rest).map (fun n => (n : Int))

/-- Embeds `parseInt(this.numberOfImages.value) || 1`: both `NaN` and `0` are
falsy, so both default to `1`. -/
def numberOfImagesOf (s : String) : Int :=
  match parseIntJS s with
  | none => 1
  | some 0 => 1
  | some n => n

/-- Outcome of the text-analysis `fetch`: the promise rejected (network
failure), the response was not ok (HTTP/auth error, carrying the error
message), or it succeeded with an optional candidate text. -/
inductive AnalysisOutcome
  | fetchFailed (msg : String)
  | httpError (msg : String)
  | ok (text : Option String)

/-- Embeds `callGeminiAPI(prompt, imageBase64)`: parse the requested count, run the
analysis call, and either rethrow its failure wrapped in
`Failed to process image: …` (the `catch` block) or extract the enhanced
prompt — falling back to the original `prompt` only when the successful
response carries no (or empty) candidate text — and run the generation
loop. -/
def callGeminiAPI (numberValue prompt : String) (src : SourceImage)
    (outcome : AnalysisOutcome) (title style : String)
    (fails : Nat → Bool) (rng : Nat → List ℚ) (now : Nat) :
    Except String (List VariantResult) :=
  let count := numberOfImagesOf numberValue
  match outcome with
  | .fetchFailed m => .error ("Failed to process image: " ++ m)
  | .httpError m => .error ("Failed to process image: " ++ m)
  | .ok t =>
      let enhanced := match t with
        | none => prompt
        | some s => if s = "" then prompt else s
      .ok (generateModifiedImages count.toNat enhanced src title style fails rng now)

/-! ## Helper lemmas -/

theorem roundHalfEven_le (q : ℚ) : roundHalfEven q ≤ ⌊q⌋ + 1 := by
  unfold roundHalfEven
  split_ifs <;> omega

theorem toByte_le (q : ℚ) : toByte q ≤ 255 := by
  unfold toByte
  split_ifs with h1 h2
  · omega
  · exact le_refl _
  · have hq : q < 255 := not_le.mp h2
    have hf : ⌊q⌋ < 255 := Int.floor_lt.mpr (by exact_mod_cast hq)
    have hr := roundHalfEven_le q
    omega

theorem tintByte_le (f : ℚ) (x : Nat) : tintByte f x ≤ 255 := toByte_le _

theorem alphaBytes_tintData (fr fg fb : ℚ) :
    ∀ d, alphaBytes (tintData fr fg fb d) = alphaBytes d
  | [] => rfl
  | [_] => rfl
  | [_, _] => rfl
  | [_, _, _] => rfl
  | _ :: _ :: _ :: _ :: rest => by
      simp only [tintData, alphaBytes]
      exact congrArg _ (alphaBytes_tintData fr fg fb rest)

theorem alphaBytes_sepiaData :
    ∀ d, alphaBytes (sepiaData d) = alphaBytes d
  | [] => rfl
  | [_] => rfl
  | [_, _] => rfl
  | [_, _, _] => rfl
  | _ :: _ :: _ :: _ :: rest => by
      simp only [sepiaData, alphaBytes]
      exact congrArg _ (alphaBytes_sepiaData rest)

theorem fillRect_gco (c : Ctx) (x y w h : ℚ) : (c.fillRect x y w h).gco = c.gco := rfl

theorem fillText_gco (c : Ctx) (s : String) (x y : ℚ) : (c.fillText s x y).gco = c.gco := rfl

theorem strokeText_gco (c : Ctx) (s : String) (x y : ℚ) :
    (c.strokeText s x y).gco = c.gco := rfl

theorem drawSelf_gco (c : Ctx) (dx dy : ℚ) : (c.drawSelf dx dy).gco = c.gco := rfl

theorem fillRect_alpha (c : Ctx) (x y w h : ℚ) : (c.fillRect x y w h).alpha = c.alpha := rfl

theorem fillText_alpha (c : Ctx) (s : String) (x y : ℚ) :
    (c.fillText s x y).alpha = c.alpha := rfl

theorem strokeText_alpha (c : Ctx) (s : String) (x y : ℚ) :
    (c.strokeText s x y).alpha = c.alpha := rfl

theorem foldl_preserve {α β : Type} (g : α → β) (f : α → Nat → α)
    (hf : ∀ a k, g (f a k) = g a) :
    ∀ (l : List Nat) (a : α), g (l.foldl f a) = g a := by
  intro l
  induction l with
  | nil => intro a; rfl
  | cons x xs ih =>
      intro a
      rw [List.foldl_cons, ih, hf]

theorem metallic_gco (c : Ctx) (t : String) (x y fs : ℚ) :
    (draw3DMetallicText c t x y fs).gco = c.gco := by
  simp only [draw3DMetallicText, strokeText_gco, fillText_gco]
  have hstep : ∀ (a : Ctx) (k : Nat), (metallicShadow t x y a k).gco = a.gco := fun a k => rfl
  exact foldl_preserve (fun p => p.gco) (metallicShadow t x y) hstep _ _

theorem metallic_alpha (c : Ctx) (t : String) (x y fs : ℚ) :
    (draw3DMetallicText c t x y fs).alpha = c.alpha := by
  simp only [draw3DMetallicText, strokeText_alpha, fillText_alpha]
  have hstep : ∀ (a : Ctx) (k : Nat), (metallicShadow t x y a k).alpha = a.alpha :=
    fun a k => rfl
  exact foldl_preserve (fun p => p.alpha) (metallicShadow t x y) hstep _ _

theorem balloon_gco (c : Ctx) (t : String) (x y fs : ℚ) (r : List ℚ) :
    ((drawBalloonText c t x y fs r).1).gco = c.gco := by
  simp [drawBalloonText, Ctx.fillText, Ctx.strokeText]

theorem balloon_alpha (c : Ctx) (t : String) (x y fs : ℚ) (r : List ℚ) :
    ((drawBalloonText c t x y fs r).1).alpha = c.alpha := by
  simp [drawBalloonText, Ctx.fillText, Ctx.strokeText]

theorem matrix_gco (c : Ctx) (t : String) (x y fs : ℚ) (r : List ℚ) :
    ((drawMatrixText c t x y fs r).1).gco = c.gco := by
  simp only [drawMatrixText]
  have hstep : ∀ (a : Ctx × List ℚ) (k : Nat), ((matrixNoise x y fs a k).1).gco = (a.1).gco :=
    fun a k => rfl
  exact foldl_preserve (fun p => (p.1).gco) (matrixNoise x y fs) hstep _ _

theorem matrix_alpha (c : Ctx) (t : String) (x y fs : ℚ) (r : List ℚ) :
    ((drawMatrixText c t x y fs r).1).alpha = c.alpha := by
  simp only [drawMatrixText]
  have hstep : ∀ (a : Ctx × List ℚ) (k : Nat), ((matrixNoise x y fs a k).1).alpha = (a.1).alpha :=
    fun a k => rfl
  exact foldl_preserve (fun p => (p.1).alpha) (matrixNoise x y fs) hstep _ _

theorem simpleText_gco (c : Ctx) (t : String) (x y fs : ℚ) (v : Nat) :
    (drawSimpleText c t x y fs v).gco = c.gco := by
  simp only [drawSimpleText, strokeText_gco, fillText_gco]

theorem simpleText_alpha (c : Ctx) (t : String) (x y fs : ℚ) (v : Nat) :
    (drawSimpleText c t x y fs v).alpha = c.alpha := by
  simp only [drawSimpleText, strokeText_alpha, fillText_alpha]

theorem addTextOverlay_gco (c : Ctx) (t s : String) (v : Nat) (r : List ℚ) :
    ((addTextOverlay c t s v r).1).gco = c.gco := by
  unfold addTextOverlay
  split_ifs with h1 h2 h3
  · exact metallic_gco ..
  · exact balloon_gco ..
  · exact matrix_gco ..
  · exact simpleText_gco ..

theorem addTextOverlay_alpha (c : Ctx) (t s : String) (v : Nat) (r : List ℚ) :
    ((addTextOverlay c t s v r).1).alpha = c.alpha := by
  unfold addTextOverlay
  split_ifs with h1 h2 h3
  · exact metallic_alpha ..
  · exact balloon_alpha ..
  · exact matrix_alpha ..
  · exact simpleText_alpha ..

theorem colorEffect_gco (c : Ctx) (v : Nat) : (applyColorEffect c v).gco = c.gco := rfl

theorem colorEffect_alpha (c : Ctx) (v : Nat) : (applyColorEffect c v).alpha = c.alpha := rfl

theorem brightness_gco (c : Ctx) (v : Nat) :
    (applyBrightnessEffect c v).gco = CompOp.sourceOver := rfl

theorem brightness_alpha (c : Ctx) (v : Nat) :
    (applyBrightnessEffect c v).alpha = c.alpha := rfl

theorem darkness_gco (c : Ctx) (v : Nat) :
    (applyDarknessEffect c v).gco = CompOp.sourceOver := rfl

theorem darkness_alpha (c : Ctx) (v : Nat) : (applyDarknessEffect c v).alpha = c.alpha := rfl

theorem drawSelf_alpha (c : Ctx) (dx dy : ℚ) : (c.drawSelf dx dy).alpha = c.alpha := rfl

theorem blur_gco (c : Ctx) : (applyBlurEffect c).gco = c.gco := by
  simp only [applyBlurEffect, blurPass, drawSelf_gco]

theorem blur_alpha (c : Ctx) : (applyBlurEffect c).alpha = 1 := by
  simp only [applyBlurEffect, blurPass]

theorem addVariationEffect_gco (c : Ctx) (r : List ℚ) :
    ∀ v : Nat, ((addVariationEffect c r v).1).gco =
      (if v = 0 ∨ v = 2 then c.gco else CompOp.sourceOver)
  | 0 => rfl
  | 1 => rfl
  | 2 => rfl
  | (_ + 3) => rfl

theorem addVariationEffect_alpha (c : Ctx) (r : List ℚ) :
    ∀ v : Nat, ((addVariationEffect c r v).1).alpha = c.alpha
  | 0 => rfl
  | 1 => rfl
  | 2 => rfl
  | (_ + 3) => rfl

/-! ## Claim C4 — the sepia transform -/

/-- C4, counterexample to the claim as stated: the sepia matrix applied to
the pixel RGB (200,100,50) gives red channel
`min(255, 200·0.393 + 100·0.769 + 50·0.189) = min(255, 164.95)`, which
rounds to `165`, not `183` as the claim asserts. -/
theorem claim_C4_counterexample : sepiaR 200 100 50 ≠ 183 := by
  norm_num [sepiaR, toByte, roundHalfEven, min_def]
  omega

/-- C4 (amended): the sepia transform — the default effect for variant
index 2 — maps each pixel by R' = 0.393R + 0.769G + 0.189B,
G' = 0.349R + 0.686G + 0.168B, B' = 0.272R + 0.534G + 0.131B, each clamped
to 255, leaving alpha untouched; for input RGB (200,100,50) the result is
(165, 147, 114) — red = min(255, 164.95) rounded = 165 — and applying sepia
twice to that pixel yields a different result than once (not idempotent). -/
theorem claim_C4_sepia :
    (∀ (c : Ctx) (rng : List ℚ), (addVariationEffect c rng 2).1.pixels = sepiaData c.pixels)
    ∧ (∀ r g b a rest, sepiaData (r :: g :: b :: a :: rest) =
        sepiaR r g b :: sepiaG r g b :: sepiaB r g b :: a :: sepiaData rest)
    ∧ (∀ d, alphaBytes (sepiaData d) = alphaBytes d)
    ∧ sepiaR 200 100 50 = 165 ∧ sepiaG 200 100 50 = 147 ∧ sepiaB 200 100 50 = 114
    ∧ sepiaData (sepiaData [200, 100, 50, 255]) ≠ sepiaData [200, 100, 50, 255] := by
  have h1 : sepiaData [200, 100, 50, 255] = [165, 147, 114, 255] := by
    norm_num [sepiaData, sepiaR, sepiaG, sepiaB, toByte, roundHalfEven, min_def]
    omega
  have h2 : sepiaData [165, 147, 114, 255] = [199, 178, 138, 255] := by
    norm_num [sepiaData, sepiaR, sepiaG, sepiaB, toByte, roundHalfEven, min_def]
    omega
  refine ⟨fun c rng => rfl, fun r g b a rest => rfl, alphaBytes_sepiaData, ?_, ?_, ?_, ?_⟩
  · norm_num [sepiaR, toByte, roundHalfEven, min_def]
    omega
  · norm_num [sepiaG, toByte, roundHalfEven, min_def]
    omega
  · norm_num [sepiaB, toByte, roundHalfEven, min_def]
    omega
  · rw [h1, h2]; simp

/-! ## Claim C5 — `applyColorEffect` -/

/-- C5: `applyColorEffect` selects its factor triple by `variation mod 4`
from the fixed table {(1.2,0.8,0.8), (0.8,0.8,1.2), (0.8,1.2,0.8),
(1.1,1.1,0.7)}, multiplies each RGB channel by the corresponding factor
(`min(255, channel · factor)` followed by the clamped store), so no channel
of the output ever exceeds 255 — e.g. 255·1.2 = 306 clamps to 255 — and the
alpha byte of every pixel is left unchanged. -/
theorem claim_C5_applyColorTint :
    colorEffects = [(12/10, 8/10, 8/10), (8/10, 8/10, 12/10),
      (8/10, 12/10, 8/10), (11/10, 11/10, 7/10)]
    ∧ (∀ (c : Ctx) (v : Nat), applyColorEffect c v = applyColorEffect c (v % 4))
    ∧ (∀ (c : Ctx) (v : Nat), (applyColorEffect c v).pixels =
        tintData (colorEffects.getD (v % 4) (1, 1, 1)).1
          (colorEffects.getD (v % 4) (1, 1, 1)).2.1
          (colorEffects.getD (v % 4) (1, 1, 1)).2.2 c.pixels)
    ∧ (∀ (fr fg fb : ℚ) (r g b a : Nat) (rest : List Nat),
        tintData fr fg fb (r :: g :: b :: a :: rest) =
          tintByte fr r :: tintByte fg g :: tintByte fb b :: a :: tintData fr fg fb rest)
    ∧ (∀ (f : ℚ) (x : Nat), tintByte f x = toByte (min 255 ((x : ℚ) * f)))
    ∧ (∀ (f : ℚ) (x : Nat), tintByte f x ≤ 255)
    ∧ tintByte (12/10) 255 = 255
    ∧ (∀ (fr fg fb : ℚ) (d : List Nat), alphaBytes (tintData fr fg fb d) = alphaBytes d) := by
  have hmod : ∀ v : Nat, v % 4 % 4 = v % 4 := fun v => by omega
  refine ⟨rfl, ?_, ?_, fun fr fg fb r g b a rest => rfl, fun f x => rfl,
    tintByte_le, ?_, alphaBytes_tintData⟩
  · intro c v
    simp [applyColorEffect, colorEffects, hmod v]
  · intro c v
    simp [applyColorEffect, colorEffects]
  · norm_num [tintByte, toByte, roundHalfEven, min_def]

/-! ## Claim C6 — composer order and keyword triggers -/

/-- C6: the composer applies effects in the fixed order tint, brightness
wash, darkness wash, blur, text overlay, variant-indexed default effect;
each keyword step fires iff one of its trigger substrings occurs
case-insensitively in the prompt, and matching triggers are independent:
"make it bright and blue" fires both the tint step (via "blue") and the
brightness step (via "bright") and nothing else, while a prompt matching no
trigger yields only the default effect (plus the text overlay when a title
is present). -/
theorem claim_C6_keyword_triggers :
    (∀ (c : Ctx) (style : String) (v : Nat) (rng : List ℚ),
      applyImageModifications c "make it bright and blue" "" style v rng =
        (addVariationEffect (applyBrightnessEffect (applyColorEffect c v) v) rng v).1)
    ∧ (∀ prompt, tintTriggered prompt =
        (occursCI prompt "color" || occursCI prompt "blue" || occursCI prompt "red"))
    ∧ (∀ prompt, brightTriggered prompt =
        (occursCI prompt "bright" || occursCI prompt "light"))
    ∧ (∀ prompt, darkTriggered prompt =
        (occursCI prompt "dark" || occursCI prompt "shadow"))
    ∧ (∀ prompt, blurTriggered prompt =
        (occursCI prompt "blur" || occursCI prompt "soft"))
    ∧ (∀ prompt, tintTriggered prompt = false → brightTriggered prompt = false →
        darkTriggered prompt = false → blurTriggered prompt = false →
        ∀ (c : Ctx) (style : String) (v : Nat) (rng : List ℚ),
          applyImageModifications c prompt "" style v rng = (addVariationEffect c rng v).1)
    ∧ (∀ prompt, tintTriggered prompt = false → brightTriggered prompt = false →
        darkTriggered prompt = false → blurTriggered prompt = false →
        ∀ (c : Ctx) (title style : String) (v : Nat) (rng : List ℚ),
          jsTrim title ≠ "" →
          applyImageModifications c prompt title style v rng =
            (addVariationEffect
              (addTextOverlay c (jsTrim title) style v rng).1
              (addTextOverlay c (jsTrim title) style v rng).2 v).1) := by
  refine ⟨fun c style v rng => rfl, fun p => rfl, fun p => rfl, fun p => rfl, fun p => rfl,
    ?_, ?_⟩
  · intro prompt h1 h2 h3 h4 c style v rng
    simp [applyImageModifications, h1, h2, h3, h4]
    rfl
  · intro prompt h1 h2 h3 h4 c title style v rng ht
    simp [applyImageModifications, h1, h2, h3, h4, ht]

/-- C6 witness: the concrete instances — both triggers fire for
"make it bright and blue", while "hello" with title "Hi" fires only the
overlay and the default effect. -/
theorem claim_C6_witness :
    (∀ (c : Ctx) (rng : List ℚ),
      applyImageModifications c "make it bright and blue" "" "" 0 rng =
        (addVariationEffect (applyBrightnessEffect (applyColorEffect c 0) 0) rng 0).1)
    ∧ (∀ (c : Ctx) (rng : List ℚ),
      applyImageModifications c "hello" "" "" 1 rng = (addVariationEffect c rng 1).1)
    ∧ (∀ (c : Ctx) (rng : List ℚ),
      applyImageModifications c "hello" "Hi" "" 2 rng =
        (addVariationEffect
          (addTextOverlay c (jsTrim "Hi") "" 2 rng).1
          (addTextOverlay c (jsTrim "Hi") "" 2 rng).2 2).1) :=
  ⟨fun c rng => claim_C6_keyword_triggers.1 c "" 0 rng,
   fun c rng => claim_C6_keyword_triggers.2.2.2.2.2.1 "hello"
     (by decide) (by decide) (by decide) (by decide) c "" 1 rng,
   fun c rng => claim_C6_keyword_triggers.2.2.2.2.2.2 "hello"
     (by decide) (by decide) (by decide) (by decide) c "Hi" "" 2 rng (by decide)⟩

/-! ## Claim C10 — blend-state restoration -/

/-- C10: every compositing step restores the surface's global drawing state
before returning — the brightness and darkness washes reset
`globalCompositeOperation` to source-over, the cheap blur resets
`globalAlpha` to 1.0, and the light-rays (index 1) and random-tint (index
≥ 3) default effects reset `globalCompositeOperation` to source-over — so a
composition started in default blend state is in default blend state at
entry to each step and at the end. -/
theorem claim_C10_state_restore :
    (∀ (c : Ctx) (v : Nat), (applyBrightnessEffect c v).gco = CompOp.sourceOver
      ∧ (applyBrightnessEffect c v).alpha = c.alpha)
    ∧ (∀ (c : Ctx) (v : Nat), (applyDarknessEffect c v).gco = CompOp.sourceOver
      ∧ (applyDarknessEffect c v).alpha = c.alpha)
    ∧ (∀ c : Ctx, (applyBlurEffect c).alpha = 1 ∧ (applyBlurEffect c).gco = c.gco)
    ∧ (∀ (c : Ctx) (r : List ℚ), ((addVariationEffect c r 1).1).gco = CompOp.sourceOver)
    ∧ (∀ (c : Ctx) (r : List ℚ) (v : Nat),
        ((addVariationEffect c r (v + 3)).1).gco = CompOp.sourceOver)
    ∧ (∀ (c : Ctx) (v : Nat) (t s : String) (r : List ℚ),
        c.gco = CompOp.sourceOver → c.alpha = 1 →
        ((applyColorEffect c v).gco = CompOp.sourceOver ∧ (applyColorEffect c v).alpha = 1)
        ∧ ((applyBlurEffect c).gco = CompOp.sourceOver ∧ (applyBlurEffect c).alpha = 1)
        ∧ (((addTextOverlay c t s v r).1).gco = CompOp.sourceOver
            ∧ ((addTextOverlay c t s v r).1).alpha = 1)
        ∧ (((addVariationEffect c r v).1).gco = CompOp.sourceOver
            ∧ ((addVariationEffect c r v).1).alpha = 1))
    ∧ (∀ (c : Ctx) (prompt title style : String) (v : Nat) (rng : List ℚ),
        c.gco = CompOp.sourceOver → c.alpha = 1 →
        (applyImageModifications c prompt title style v rng).gco = CompOp.sourceOver
        ∧ (applyImageModifications c prompt title style v rng).alpha = 1) := by
  refine ⟨fun c v => ⟨rfl, rfl⟩, fun c v => ⟨rfl, rfl⟩,
    fun c => ⟨blur_alpha c, blur_gco c⟩, fun c r => rfl, fun c r v => rfl, ?_, ?_⟩
  · intro c v t s r hg ha
    refine ⟨⟨(colorEffect_gco c v).trans hg, (colorEffect_alpha c v).trans ha⟩,
      ⟨(blur_gco c).trans hg, blur_alpha c⟩,
      ⟨(addTextOverlay_gco c t s v r).trans hg, (addTextOverlay_alpha c t s v r).trans ha⟩,
      ?_, (addVariationEffect_alpha c r v).trans ha⟩
    rw [addVariationEffect_gco]
    split_ifs <;> simp [hg]
  · intro c prompt title style v rng hg ha
    simp only [applyImageModifications]
    rw [addVariationEffect_gco, addVariationEffect_alpha]
    split_ifs <;>
      simp_all [addTextOverlay_gco, addTextOverlay_alpha, colorEffect_gco, colorEffect_alpha,
        brightness_gco, brightness_alpha, darkness_gco, darkness_alpha, blur_gco, blur_alpha]

/-- C10 witness: at a concrete surface in default blend state, the whole
composition and the random-tint default effect end in default blend
state. -/
theorem claim_C10_witness :
    (applyImageModifications
        (initCtx ⟨1, 1, [10, 20, 30, 255]⟩) "p" "" "" 3 []).gco = CompOp.sourceOver
    ∧ (applyImageModifications
        (initCtx ⟨1, 1, [10, 20, 30, 255]⟩) "p" "" "" 3 []).alpha = 1 :=
  claim_C10_state_restore.2.2.2.2.2.2 (initCtx ⟨1, 1, [10, 20, 30, 255]⟩)
    "p" "" "" 3 [] rfl rfl

/-! ## Claim C8 — determinism and its documented exemptions -/

/-- A small concrete surface (a 1×1 decoded source) used to exhibit the
documented randomness. -/
def sampleCtx : Ctx := initCtx ⟨1, 1, [10, 20, 30, 255]⟩

theorem addVariationEffect_det (c : Ctx) (r1 r2 : List ℚ) :
    ∀ v : Nat, v < 3 → (addVariationEffect c r1 v).1 = (addVariationEffect c r2 v).1
  | 0, _ => rfl
  | 1, _ => rfl
  | 2, _ => rfl
  | (v + 3), h => absurd h (by omega)

/-- C8: for a fixed surface, prompt and variant index, the output is
independent of the ambient randomness stream — `applyColorEffect` draws no
randomness at all (its arguments are only the surface and the index), the
default effects for indices 0, 1, 2 (vignette, light rays, sepia) are
pixel-identical across runs with different random streams, and so is the
whole composition (without a text overlay) for those indices; the
random-tint default effect (index ≥ 3) and the balloon text color do change
with the random stream — the documented exemptions. -/
theorem claim_C8_determinism :
    (∀ (c : Ctx) (r1 r2 : List ℚ) (v : Nat), v < 3 →
      (addVariationEffect c r1 v).1 = (addVariationEffect c r2 v).1)
    ∧ (∀ (c : Ctx) (prompt style : String) (v : Nat) (r1 r2 : List ℚ), v < 3 →
      applyImageModifications c prompt "" style v r1 =
        applyImageModifications c prompt "" style v r2)
    ∧ (addVariationEffect sampleCtx [0, 0, 0] 3).1 ≠
        (addVariationEffect sampleCtx [1/2, 1/2, 1/2] 3).1
    ∧ (drawBalloonText sampleCtx "A" 0 0 8 [0]).1 ≠
        (drawBalloonText sampleCtx "A" 0 0 8 [1/5]).1 := by
  refine ⟨fun c r1 r2 v h => addVariationEffect_det c r1 r2 v h, ?_, ?_, ?_⟩
  · intro c prompt style v r1 r2 hv
    simp only [applyImageModifications]
    have ht : jsTrim "" = "" := rfl
    rw [ht]
    simp only [if_pos rfl]
    exact addVariationEffect_det _ r1 r2 v hv
  · intro h
    norm_num [addVariationEffect, sampleCtx, initCtx, Ctx.fillRect, rngDraw] at h
  · intro h
    norm_num [drawBalloonText, sampleCtx, initCtx, Ctx.fillText, Ctx.strokeText, rngDraw,
      balloonPalette] at h

/-- C8 witness: concrete deterministic instances — the vignette default
effect and a sepia-index composition are unchanged when the random stream
changes. -/
theorem claim_C8_witness :
    (addVariationEffect sampleCtx [0] 0).1 = (addVariationEffect sampleCtx [1] 0).1
    ∧ applyImageModifications sampleCtx "blue" "" "" 2 [0] =
        applyImageModifications sampleCtx "blue" "" "" 2 [1] :=
  ⟨claim_C8_determinism.1 sampleCtx [0] [1] 0 (by decide),
   claim_C8_determinism.2.1 sampleCtx "blue" "" 2 [0] [1] (by decide)⟩

/-! ## Claim C1 — the result-count contract and the variant tags -/

/-- A small concrete decoded source used at concrete driver inputs. -/
def sampleSrc : SourceImage := ⟨1, 1, [10, 20, 30, 255]⟩

/-- C1, counterexample to the claim as stated: for the valid request
`N = 1`, the single result is tagged `variation = 1` (the code pushes
`variation: i + 1`), not with a variant index drawn from `0..N-1 = {0}`. -/
theorem claim_C1_counterexample :
    (generateModifiedImages 1 "p" sampleSrc "" "" (fun _ => false) (fun _ => []) 0).map
      (fun r => r.variation) = [1] ∧ (1 : Nat) ≠ 0 :=
  ⟨rfl, by decide⟩

/-- C1 (amended): for every requested count `N` — failures included — the
driver returns exactly `N` results; the `i`-th result (0-based, generated
with variant index `i`) carries the tag `variation = i + 1`, so the tags
are the distinct values `1..N` in increasing order, not `0..N-1`. -/
theorem claim_C1_results (count : Nat) (prompt : String) (src : SourceImage)
    (title style : String) (fails : Nat → Bool) (rng : Nat → List ℚ) (now : Nat) :
    (generateModifiedImages count prompt src title style fails rng now).length = count
    ∧ (generateModifiedImages count prompt src title style fails rng now).map
        (fun r => r.variation) = (List.range count).map (fun i => i + 1)
    ∧ ((generateModifiedImages count prompt src title style fails rng now).map
        (fun r => r.variation)).Nodup := by
  have hv : ∀ i, ((if fails i then
      ({ imageData := createFallbackModifiedImage src i (rng i), prompt := prompt,
         timestamp := now + i, variation := i + 1 } : VariantResult)
    else
      { imageData := createModifiedImage src prompt title style i (rng i), prompt := prompt,
        timestamp := now + i, variation := i + 1 })).variation = i + 1 := by
    intro i; split_ifs <;> rfl
  have hmap : (generateModifiedImages count prompt src title style fails rng now).map
      (fun r => r.variation) = (List.range count).map (fun i => i + 1) := by
    simp [generateModifiedImages, List.map_map, Function.comp, hv]
  refine ⟨by simp [generateModifiedImages], hmap, ?_⟩
  rw [hmap]
  exact List.Nodup.map (fun a b hab => by omega) (List.nodup_range count)

/-! ## Claim C3 — decode discipline and variant independence -/

/-- C3, counterexample to the claim as stated: a request for 2 variants
with no failures performs 2 decodes of the source (one per
`createModifiedImage` call), not exactly one per edit request. -/
theorem claim_C3_counterexample :
    decodeCount 2 (fun _ => false) = 2 ∧ (2 : Nat) ≠ 1 :=
  ⟨rfl, by decide⟩

theorem decodeCount_eq (fails : Nat → Bool) :
    ∀ count, decodeCount count fails =
      count + ((List.range count).filter (fun i => fails i)).length := by
  intro count
  induction count with
  | zero => rfl
  | succ n ih =>
      simp only [decodeCount, List.range_succ, List.map_append, List.sum_append,
        List.filter_append, List.length_append] at ih ⊢
      by_cases hf : fails n <;> simp [hf] <;> omega

/-- C3 (amended): the encoded source is shared immutably, but it is decoded
once per variant composition (`new Image()` inside each
`createModifiedImage`), not once per edit request: a failure-free request
for `N` variants performs `N` decodes, plus one more per failed variant.
Each variant starts from its own fresh copy of the unmodified source
pixels, so variants are independent — the first `N` results of a larger run
coincide with the results of an `N`-variant run, i.e. a variant's content
does not depend on how many others are generated around it. -/
theorem claim_C3_decode_per_variant :
    (∀ (count : Nat) (fails : Nat → Bool), decodeCount count fails =
      count + ((List.range count).filter (fun i => fails i)).length)
    ∧ (∀ (count : Nat) (fails : Nat → Bool), (∀ i, i < count → fails i = false) →
        decodeCount count fails = count)
    ∧ (∀ src : SourceImage, (initCtx src).pixels = src.pixels
        ∧ (initCtx src).trace = [Cmd.drawSource])
    ∧ (∀ (N M : Nat), N ≤ M →
        ∀ (prompt : String) (src : SourceImage) (title style : String)
          (fails : Nat → Bool) (rng : Nat → List ℚ) (now : Nat),
        (generateModifiedImages M prompt src title style fails rng now).take N =
          generateModifiedImages N prompt src title style fails rng now) := by
  refine ⟨fun count fails => decodeCount_eq fails count, ?_, fun src => ⟨rfl, rfl⟩, ?_⟩
  · intro count fails h
    rw [decodeCount_eq]
    have hnil : (List.range count).filter (fun i => fails i) = [] := by
      apply List.filter_eq_nil_iff.mpr
      intro a ha
      simp [h a (List.mem_range.mp ha)]
    simp [hnil]
  · intro N M h prompt src title style fails rng now
    simp only [generateModifiedImages]
    rw [← List.map_take, List.take_range, min_eq_left h]

/-- C3 witness: a failure-free run of 3 variants decodes 3 times, and the
first result of a 2-variant run equals the 1-variant run's result. -/
theorem claim_C3_witness :
    decodeCount 3 (fun _ => false) = 3
    ∧ (generateModifiedImages 2 "p" sampleSrc "" "" (fun _ => false) (fun _ => []) 0).take 1 =
        generateModifiedImages 1 "p" sampleSrc "" "" (fun _ => false) (fun _ => []) 0 :=
  ⟨claim_C3_decode_per_variant.2.1 3 (fun _ => false) (fun i _ => rfl),
   claim_C3_decode_per_variant.2.2.2 1 2 (by decide) "p" sampleSrc "" ""
     (fun _ => false) (fun _ => []) 0⟩

/-! ## Claim C7 — per-variant fallback -/

/-- C7: when the composition of one variant index throws, the driver
substitutes for that index — at the same list position — the fallback
variant, which applies only the variant-indexed default effect to a fresh
unmodified copy of the source; the result list keeps full count, every
index keeps its tag, and a failed index differs from a successful one only
in its image content. -/
theorem claim_C7_fallback (count : Nat) (prompt : String) (src : SourceImage)
    (title style : String) (fails : Nat → Bool) (rng : Nat → List ℚ) (now : Nat) :
    (generateModifiedImages count prompt src title style fails rng now).length = count
    ∧ (∀ i, i < count → fails i = true →
        (generateModifiedImages count prompt src title style fails rng now)[i]? =
          some { imageData := createFallbackModifiedImage src i (rng i), prompt := prompt,
                 timestamp := now + i, variation := i + 1 })
    ∧ (∀ i, i < count → fails i = false →
        (generateModifiedImages count prompt src title style fails rng now)[i]? =
          some { imageData := createModifiedImage src prompt title style i (rng i),
                 prompt := prompt, timestamp := now + i, variation := i + 1 })
    ∧ (∀ (v : Nat) (r : List ℚ), (createFallbackModifiedImage src v r).surface =
        (addVariationEffect (initCtx src) r v).1) := by
  refine ⟨by simp [generateModifiedImages], ?_, ?_, fun v r => rfl⟩
  · intro i hi hf
    simp [generateModifiedImages, List.getElem?_map, List.getElem?_range hi, hf]
  · intro i hi hf
    simp [generateModifiedImages, List.getElem?_map, List.getElem?_range hi, hf]

/-- C7 witness: with 2 requested variants and index 0 forced to throw, the
list still has both entries — index 0 holding the fallback, index 1 the
composed variant. -/
theorem claim_C7_witness :
    (generateModifiedImages 2 "p" sampleSrc "" "" (fun i => i == 0) (fun _ => []) 0).length = 2
    ∧ (generateModifiedImages 2 "p" sampleSrc "" "" (fun i => i == 0) (fun _ => []) 0)[0]? =
        some { imageData := createFallbackModifiedImage sampleSrc 0 [], prompt := "p",
               timestamp := 0, variation := 1 }
    ∧ (generateModifiedImages 2 "p" sampleSrc "" "" (fun i => i == 0) (fun _ => []) 0)[1]? =
        some { imageData := createModifiedImage sampleSrc "p" "" "" 1 [], prompt := "p",
               timestamp := 1, variation := 2 } :=
  ⟨(claim_C7_fallback 2 "p" sampleSrc "" "" (fun i => i == 0) (fun _ => []) 0).1,
   (claim_C7_fallback 2 "p" sampleSrc "" "" (fun i => i == 0) (fun _ => []) 0).2.1 0
     (by decide) (by decide),
   (claim_C7_fallback 2 "p" sampleSrc "" "" (fun i => i == 0) (fun _ => []) 0).2.2.1 1
     (by decide) (by decide)⟩

/-! ## Claim C2 — the analysis-failure path -/

/-- C2, counterexample to the claim as stated: an auth/HTTP failure of the
text-analysis call (`!analysisResponse.ok`) is thrown, caught by
`callGeminiAPI`'s catch block and rethrown as a failure of the whole
request — the pipeline does not proceed to produce variant results. -/
theorem claim_C2_counterexample :
    callGeminiAPI "2" "p" sampleSrc (AnalysisOutcome.httpError "API key not valid") "" ""
      (fun _ => false) (fun _ => []) 0 =
      Except.error "Failed to process image: API key not valid" := rfl

/-- C2 (amended): the original instruction text substitutes for the
enhanced prompt only when the analysis call succeeds but carries no (or
empty) candidate text; in that case the pipeline proceeds to its N variant
results.  A network failure of the fetch, or a non-ok (auth/HTTP) response,
propagates out of `callGeminiAPI` as an error for the whole request. -/
theorem claim_C2_analysis_fallback :
    (∀ (n p : String) (src : SourceImage) (title style : String)
        (fails : Nat → Bool) (rng : Nat → List ℚ) (now : Nat),
      callGeminiAPI n p src (AnalysisOutcome.ok none) title style fails rng now =
        Except.ok (generateModifiedImages (numberOfImagesOf n).toNat p src title style
          fails rng now))
    ∧ (∀ (n p : String) (src : SourceImage) (title style : String)
        (fails : Nat → Bool) (rng : Nat → List ℚ) (now : Nat),
      callGeminiAPI n p src (AnalysisOutcome.ok (some "")) title style fails rng now =
        Except.ok (generateModifiedImages (numberOfImagesOf n).toNat p src title style
          fails rng now))
    ∧ (∀ (t : String), t ≠ "" →
        ∀ (n p : String) (src : SourceImage) (title style : String)
          (fails : Nat → Bool) (rng : Nat → List ℚ) (now : Nat),
        callGeminiAPI n p src (AnalysisOutcome.ok (some t)) title style fails rng now =
          Except.ok (generateModifiedImages (numberOfImagesOf n).toNat t src title style
            fails rng now))
    ∧ (∀ (m n p : String) (src : SourceImage) (title style : String)
        (fails : Nat → Bool) (rng : Nat → List ℚ) (now : Nat),
      callGeminiAPI n p src (AnalysisOutcome.httpError m) title style fails rng now =
        Except.error ("Failed to process image: " ++ m))
    ∧ (∀ (m n p : String) (src : SourceImage) (title style : String)
        (fails : Nat → Bool) (rng : Nat → List ℚ) (now : Nat),
      callGeminiAPI n p src (AnalysisOutcome.fetchFailed m) title style fails rng now =
        Except.error ("Failed to process image: " ++ m)) := by
  refine ⟨fun n p src title style fails rng now => rfl,
    fun n p src title style fails rng now => rfl, ?_,
    fun m n p src title style fails rng now => rfl,
    fun m n p src title style fails rng now => rfl⟩
  intro t ht n p src title style fails rng now
  simp [callGeminiAPI, ht]

/-- C2 witness: a successful analysis whose candidate text is "a cat"
drives the generation with that text. -/
theorem claim_C2_witness :
    callGeminiAPI "1" "p" sampleSrc (AnalysisOutcome.ok (some "a cat")) "" ""
      (fun _ => false) (fun _ => []) 0 =
      Except.ok (generateModifiedImages (numberOfImagesOf "1").toNat "a cat" sampleSrc "" ""
        (fun _ => false) (fun _ => []) 0) :=
  claim_C2_analysis_fallback.2.2.1 "a cat" (by decide) "1" "p" sampleSrc "" ""
    (fun _ => false) (fun _ => []) 0

/-! ## Claim C9 — count defaulting -/

/-- C9: when the number-of-images field is empty, non-numeric (`parseInt`
gives `NaN`) or parses as `0`, `parseInt(...) || 1` defaults the count to
1, and the pipeline still generates exactly one variant result. -/
theorem claim_C9_count_default (s : String)
    (h : parseIntJS s = none ∨ parseIntJS s = some 0) :
    numberOfImagesOf s = 1
    ∧ ∀ (prompt : String) (src : SourceImage) (title style : String)
        (fails : Nat → Bool) (rng : Nat → List ℚ) (now : Nat),
      (generateModifiedImages (numberOfImagesOf s).toNat prompt src title style
        fails rng now).length = 1 := by
  have h1 : numberOfImagesOf s = 1 := by
    rcases h with h | h <;> simp [numberOfImagesOf, h]
  refine ⟨h1, ?_⟩
  intro prompt src title style fails rng now
  rw [h1]
  simp [generateModifiedImages]

/-- C9 witness: the empty field, a non-numeric field and "0" all default to
one generated result. -/
theorem claim_C9_witness :
    (numberOfImagesOf "" = 1
      ∧ (generateModifiedImages (numberOfImagesOf "").toNat "p" sampleSrc "" ""
          (fun _ => false) (fun _ => []) 0).length = 1)
    ∧ (numberOfImagesOf "abc" = 1
      ∧ (generateModifiedImages (numberOfImagesOf "abc").toNat "p" sampleSrc "" ""
          (fun _ => false) (fun _ => []) 0).length = 1)
    ∧ (numberOfImagesOf "0" = 1
      ∧ (generateModifiedImages (numberOfImagesOf "0").toNat "p" sampleSrc "" ""
          (fun _ => false) (fun _ => []) 0).length = 1) :=
  ⟨⟨(claim_C9_count_default "" (Or.inl (by decide))).1,
    (claim_C9_count_default "" (Or.inl (by decide))).2 "p" sampleSrc "" ""
      (fun _ => false) (fun _ => []) 0⟩,
   ⟨(claim_C9_count_default "abc" (Or.inl (by decide))).1,
    (claim_C9_count_default "abc" (Or.inl (by decide))).2 "p" sampleSrc "" ""
      (fun _ => false) (fun _ => []) 0⟩,
   ⟨(claim_C9_count_default "0" (Or.inr (by decide))).1,
    (claim_C9_count_default "0" (Or.inr (by decide))).2 "p" sampleSrc "" ""
      (fun _ => false) (fun _ => []) 0⟩⟩

end NanoEditor
